import Mathlib

/-!
Verification of the core of `sensor01.py` (heat-ai): the serial line reader,
the message-type dispatcher, the per-message parsers (`got_info`, `got_data`,
`got_error`), and one iteration of the read/process/forward loop.

The Python code is embedded shallowly: the mutable `Sensor` object becomes an
explicit state record threaded through pure functions; each `debug(...)` /
`data(...)` call and each `time.sleep(1)` becomes a structured `LogEvent`
appended to an output list; a Python exception that escapes a function becomes
an `Except.error`.  Python string operations (`split`, `strip`, slicing) are
re-implemented structurally on `List Char` so that all definitions evaluate by
kernel reduction.
-/

namespace Sensor01

/-- Characters stripped by Python `str.strip()` (ASCII whitespace set). -/
def isSpaceChar (c : Char) : Bool :=
  c = ' ' || c = '\t' || c = '\n' || c = '\r' || c = '\x0b' || c = '\x0c'

/-- Drop whitespace from both ends of a character list. -/
def stripChars (cs : List Char) : List Char :=
  ((cs.dropWhile isSpaceChar).reverse.dropWhile isSpaceChar).reverse

/-- Python `str.strip()`. -/
def pyStrip (s : String) : String := ⟨stripChars s.data⟩

/-- Split a character list on a separator character; mirrors Python
`str.split(sep)` for a one-character separator: the empty list yields `[[]]`,
and consecutive separators yield empty groups. -/
def splitOnChar (sep : Char) : List Char → List (List Char)
  | [] => [[]]
  | c :: cs =>
    let r := splitOnChar sep cs
    if c = sep then [] :: r
    else
      match r with
      | [] => [[c]]
      | g :: gs => (c :: g) :: gs

/-- Python `s.split(sep)` for a one-character separator. -/
def pySplit (s : String) (sep : Char) : List String :=
  (splitOnChar sep s.data).map (fun l => ⟨l⟩)

/-- Python slice `s[:n]`. -/
def pyTake (s : String) (n : Nat) : String := ⟨s.data.take n⟩

/-- Python slice `s[n:]`. -/
def pyDrop (s : String) (n : Nat) : String := ⟨s.data.drop n⟩

/-- Exponent part of a float literal: empty, or `e`/`E`, an optional sign, and
one or more digits. -/
def expDigits : List Char → Bool
  | [] => false
  | '+' :: r => !r.isEmpty && r.all Char.isDigit
  | '-' :: r => !r.isEmpty && r.all Char.isDigit
  | r => r.all Char.isDigit

/-- Accepts the (possibly empty) exponent suffix of a float literal. -/
def expOk : List Char → Bool
  | [] => true
  | 'e' :: r => expDigits r
  | 'E' :: r => expDigits r
  | _ => false

/-- Accepts an unsigned decimal float literal: digits with an optional
fractional part, or a fractional part alone, followed by an optional
exponent. -/
def mantOk (cs : List Char) : Bool :=
  let ds := cs.takeWhile Char.isDigit
  let r1 := cs.drop ds.length
  if ds.isEmpty then
    match r1 with
    | '.' :: r2 =>
      let fs := r2.takeWhile Char.isDigit
      !fs.isEmpty && expOk (r2.drop fs.length)
    | _ => false
  else
    match r1 with
    | [] => true
    | '.' :: r2 =>
      let fs := r2.takeWhile Char.isDigit
      expOk (r2.drop fs.length)
    | _ => expOk r1

/-- Modelled from the spec: Python's builtin `float()` text acceptance, which
is not part of this repository (§4.2: temperature-text and humidity-text "must
each parse as a decimal floating-point number").  After stripping surrounding
whitespace and an optional sign, the text must be a decimal float literal or
one of the special words `inf` / `infinity` / `nan` (case-insensitive). -/
def pyFloatOk (s : String) : Bool :=
  let cs := stripChars s.data
  let body :=
    match cs with
    | '+' :: r => r
    | '-' :: r => r
    | r => r
  let low := body.map Char.toLower
  low == "inf".data || low == "infinity".data || low == "nan".data || mantOk body

/-- Modelled from the spec: Python `float(s)` as a fallible parse.  The parsed
value is represented by the accepted text itself (`some s`, the literal the
number was parsed from); a text `float()` rejects yields `none` (the
`ValueError` caught in `got_data`). -/
def pyFloat (s : String) : Option String :=
  if pyFloatOk s then some s else none

/-- ASCII decoding of transport bytes: Python `bytes.decode('ascii')`, which
succeeds exactly when every byte is below 128 and otherwise raises
`UnicodeDecodeError`. -/
def decodeAscii (bs : List Nat) : Option String :=
  if bs.all (fun b => decide (b < 128)) then some ⟨bs.map Char.ofNat⟩ else none

/-- Byte encoding of an ASCII string, used to build concrete transport
inputs. -/
def asciiBytes (s : String) : List Nat := s.data.map Char.toNat

/-- The mutable fields of the Python `Sensor` object: identity (`self.scale`,
`self.id`, `self.ver`), the last line read (`self.line`), and the last-seen
measurement (`self.temperature`, `self.humidity`), all `None` initially.
Temperature and humidity hold parsed float values, represented by the text
they were parsed from (see `pyFloat`). -/
structure Sensor where
  id : Option String
  ver : Option String
  scale : Option String
  line : Option String
  temperature : Option String
  humidity : Option String
deriving DecidableEq, Repr

/-- The sensor as constructed: every field `None`. -/
def initSensor : Sensor := ⟨none, none, none, none, none, none⟩

/-- One forwardable reading: the id carried by the data message (as logged by
the `data(...)` call) together with the parsed temperature and humidity values
stored into `self.temperature` / `self.humidity` and forwarded to the sink. -/
structure Reading where
  sensorId : String
  temperature : String
  humidity : String
deriving DecidableEq, Repr

/-- One observable side effect of the code, in program order: each constructor
stands for one concrete `debug(...)` / `data(...)` call site or a
`time.sleep(1)`. -/
inductive LogEvent where
  /-- `debug("got_info({}): {}")` — info payload failed to split into 4 fields. -/
  | gotInfoError (payload : String)
  /-- `debug("Temp Sensor Boot: type:{} id:{} version:{}")`. -/
  | bootInfo (scale id version : String)
  /-- `debug("got_data({}): {}")` — data payload failed to split into 3 fields. -/
  | gotDataError (payload : String)
  /-- `debug("id changed on us from {} to {}")` — identity mismatch warning. -/
  | idChanged (old : Option String) (new : String)
  /-- `debug("got_data({}):float_error: {}")` — a numeric field failed to parse. -/
  | floatError (payload : String)
  /-- `data("Id {}, Temperature {}f, Humidity {}%")` — successful measurement. -/
  | dataLog (id temp hum : String)
  /-- `debug("ERROR: Id {} - {}")` — device-reported error. -/
  | sensorError (id : Option String) (text : String)
  /-- `debug("received invalid data from sensor: ...")` — unknown tag (KeyError). -/
  | invalidData (line : String)
  /-- `debug("get_data(): {}")` — transport read failed. -/
  | readError
  /-- `debug("influxdb error: {}")` — sink write failed. -/
  | sinkError
  /-- `time.sleep(1)`. -/
  | sleep
deriving DecidableEq, Repr

/-- Result of one handler or of `process`: the updated `Sensor`, the reading
(if any) to send upstream, and the side effects emitted.  The Python handlers
return a `bool` ("send to database"); `reading = some r` corresponds to
returning `True` — only `got_data` ever does — where `r` collects the message
id and the parsed values just stored; `reading = none` corresponds to
returning `False`. -/
structure StepResult where
  sensor : Sensor
  reading : Option Reading
  logs : List LogEvent
deriving DecidableEq, Repr

/-- `Sensor.got_info` (sensor01.py:151-168): split the payload on `:` into
exactly `[_boot, scale, id, version]`; on a field-count mismatch the
`ValueError` is caught, logged, followed by a sleep, and `False` is returned
with the state untouched; on success all three identity fields are
overwritten, a boot line is logged, and `False` is returned. -/
def got_info (s : Sensor) (i : String) : StepResult :=
  match pySplit i ':' with
  | [_boot, scale, id, version] =>
    ⟨{ s with scale := some scale, id := some id, ver := some version }, none,
      [.bootInfo scale id version]⟩
  | _ => ⟨s, none, [.gotInfoError i, .sleep]⟩

/-- `Sensor.got_data` (sensor01.py:170-193): split the payload on `:` into
exactly `[id, temperature, humidity]` (failure: log, sleep, return `False`);
log an id-changed warning when `self.id != id`; then assign
`self.temperature = float(temperature)` and `self.humidity = float(humidity)`
inside one `try` — so when `float(temperature)` succeeds and
`float(humidity)` raises, `self.temperature` has already been overwritten;
on success log the measurement and return `True`. -/
def got_data (s : Sensor) (d : String) : StepResult :=
  match pySplit d ':' with
  | [id, temperature, humidity] =>
    let mismatchLog : List LogEvent :=
      if s.id = some id then [] else [.idChanged s.id id]
    match pyFloat temperature with
    | none => ⟨s, none, mismatchLog ++ [.floatError d, .sleep]⟩
    | some tv =>
      match pyFloat humidity with
      | none =>
        ⟨{ s with temperature := some tv }, none,
          mismatchLog ++ [.floatError d, .sleep]⟩
      | some hv =>
        ⟨{ s with temperature := some tv, humidity := some hv },
          some ⟨id, tv, hv⟩,
          mismatchLog ++ [.dataLog id temperature humidity]⟩
  | _ => ⟨s, none, [.gotDataError d, .sleep]⟩

/-- `Sensor.got_error` (sensor01.py:195-203): log the device-reported error
text tagged with the currently known id; state untouched, returns `False`. -/
def got_error (s : Sensor) (e : String) : StepResult :=
  ⟨s, none, [.sensorError s.id e]⟩

/-- `Sensor.process` (sensor01.py:222-244): when no line is pending return
`False`; otherwise take `m_type = line[:2]` and `message = line[2:]` and call
`self.dispatch[m_type](message)`.  A tag outside `{I:, D:, E:}` raises
`KeyError`, caught by the surrounding `except`: log the invalid line, sleep,
and return `False`.  (The handlers themselves never raise: each catches its
own parse failures, so the embedded handlers are total.) -/
def process (s : Sensor) : StepResult :=
  match s.line with
  | none => ⟨s, none, []⟩
  | some line =>
    let m_type := pyTake line 2
    let message := pyDrop line 2
    if m_type = "I:" then got_info s message
    else if m_type = "D:" then got_data s message
    else if m_type = "E:" then got_error s message
    else ⟨s, none, [.invalidData line, .sleep]⟩

/-- A Python exception escaping the embedded code. -/
inductive PyExn where
  /-- `UnicodeDecodeError` raised by `data_rd.decode('ascii')`. -/
  | unicodeDecodeError
deriving DecidableEq, Repr

/-- The transport's answer to one `readline()` call: a raw byte line, or a
raised I/O error (`TransportError`). -/
def TransportInput : Type := Except Unit (List Nat)

/-- `Sensor.read` (sensor01.py:205-220): set `self.line = None`; call
`self.fd.readline()` inside a `try` — an I/O error is logged, a sleep taken,
and the method returns with `self.line` still `None`.  On a successful read,
`data_rd.decode('ascii')` runs OUTSIDE the `try`: a non-ASCII byte raises
`UnicodeDecodeError`, which propagates out of `read` (modelled as
`Except.error`).  Otherwise the decoded line is stripped and stored. -/
def read (s : Sensor) (input : Except Unit (List Nat)) :
    Except PyExn (Sensor × List LogEvent) :=
  let s0 := { s with line := none }
  match input with
  | .error _ => .ok (s0, [.readError, .sleep])
  | .ok bs =>
    match decodeAscii bs with
    | none => .error .unicodeDecodeError
    | some str => .ok ({ s0 with line := some (pyStrip str) }, [])

/-- Result of one loop iteration: final state, the reading actually handed to
the sink (none when no reading was produced or the sink write failed), and
the side effects in order. -/
structure IterResult where
  sensor : Sensor
  forwarded : Option Reading
  logs : List LogEvent
deriving DecidableEq, Repr

/-- One iteration of the main loop (sensor01.py:265-287): `s.read()`, then
`s.process()`; when `process` returns `True` the measurement record (built
from the state fields just stored) is written to influxdb — `sinkOk` says
whether that `write_points` call succeeds; on sink failure the error is
logged, a sleep taken, and the iteration ends (the reading is dropped).  An
exception escaping `read` (the unguarded decode) escapes the loop: nothing in
the loop catches it, so it terminates the process. -/
def loopIter (s : Sensor) (input : Except Unit (List Nat)) (sinkOk : Bool) :
    Except PyExn IterResult :=
  match read s input with
  | .error e => .error e
  | .ok (s1, logs1) =>
    let r := process s1
    match r.reading with
    | some rd =>
      if sinkOk then .ok ⟨r.sensor, some rd, logs1 ++ r.logs⟩
      else .ok ⟨r.sensor, none, logs1 ++ r.logs ++ [.sinkError, .sleep]⟩
    | none => .ok ⟨r.sensor, none, logs1 ++ r.logs⟩

/-- Deliver one already-stripped line to the dispatcher: what a successful
`read` of that line followed by `process` does to the sensor state.  Used to
state per-line dispatch properties. -/
def dispatchLine (s : Sensor) (line : String) : StepResult :=
  process { s with line := some line }

/-- Helper: `got_data` never touches the three identity fields, in every one
of its branches (field-count failure, float failure, partial float failure,
success). -/
theorem got_data_identity_frame_aux (s : Sensor) (d : String) :
    (got_data s d).sensor.id = s.id ∧ (got_data s d).sensor.ver = s.ver ∧
      (got_data s d).sensor.scale = s.scale := by
  unfold got_data
  repeat' split
  all_goals simp

/-- Claim C1, counterexample: the claim as stated is false.  The data payload
`7:20.0:xx` has exactly three fields and its humidity text `xx` fails to
parse as a float, yet the sensor state is NOT left as it was: the temperature
field has already been overwritten (`self.temperature = float(temperature)`
runs before `float(humidity)` raises). -/
theorem partial_overwrite_counterexample :
    pyFloat "xx" = none ∧
    (got_data ⟨some "7", some "1.0", some "C", none, some "10.0", some "40.0"⟩
        "7:20.0:xx").sensor ≠
      ⟨some "7", some "1.0", some "C", none, some "10.0", some "40.0"⟩ := by
  decide

/-- Claim C1 (corrected): for a three-field data payload, if the temperature
text fails to parse then no Reading is produced and the state is exactly
unchanged; if the temperature text parses and only the humidity text fails,
no Reading is produced and all fields other than `temperature` are unchanged,
but the stored temperature IS overwritten with the newly parsed value — a
partial overwrite. -/
theorem got_data_parse_failure_frame (s : Sensor) (d id t h : String)
    (hsplit : pySplit d ':' = [id, t, h]) :
    (pyFloat t = none → (got_data s d).sensor = s ∧ (got_data s d).reading = none) ∧
    (∀ tv, pyFloat t = some tv → pyFloat h = none →
      (got_data s d).sensor = { s with temperature := some tv } ∧
      (got_data s d).reading = none) := by
  constructor
  · intro ht
    simp [got_data, hsplit, ht]
  · intro tv ht hh
    simp [got_data, hsplit, ht, hh]

/-- Claim C1, witness: the amended theorem applied to the concrete payload
`7:xx:40.0`, whose temperature text fails to parse, from the initial state. -/
theorem got_data_parse_failure_frame_witness :
    (got_data initSensor "7:xx:40.0").sensor = initSensor ∧
    (got_data initSensor "7:xx:40.0").reading = none :=
  (got_data_parse_failure_frame initSensor "7:xx:40.0" "7" "xx" "40.0"
    (by decide)).1 (by decide)

/-- Claim C2, counterexample: the claim as stated is false.  With stored id
`"7"`, dispatching the well-formed data payload `9:20.0:50.0` does NOT
overwrite the stored identity: the stored id afterwards is still `"7"`, not
the message's `"9"`. -/
theorem identity_not_overwritten_counterexample :
    (got_data ⟨some "7", some "1.0", some "C", none, none, none⟩
        "9:20.0:50.0").sensor.id ≠ some "9" := by
  decide

/-- Claim C2 (corrected): for every three-field data payload whose id differs
from the stored id, the mismatch is logged (`id changed on us from .. to ..`)
but the stored identity is left unchanged — a Data message never overwrites
identity; only an Info message does. -/
theorem got_data_mismatch_logged_not_overwritten (s : Sensor) (d id t h : String)
    (hsplit : pySplit d ':' = [id, t, h]) (hne : s.id ≠ some id) :
    LogEvent.idChanged s.id id ∈ (got_data s d).logs ∧
      (got_data s d).sensor.id = s.id := by
  rcases hft : pyFloat t with _ | tv <;> rcases hfh : pyFloat h with _ | hv <;>
    simp [got_data, hsplit, hft, hfh, hne]

/-- Claim C2, witness: the amended theorem applied to a state with stored id
`"7"` and the concrete payload `9:20.0:50.0`. -/
theorem got_data_mismatch_logged_not_overwritten_witness :
    LogEvent.idChanged (some "7") "9" ∈
      (got_data ⟨some "7", none, none, none, none, none⟩ "9:20.0:50.0").logs ∧
    (got_data ⟨some "7", none, none, none, none, none⟩ "9:20.0:50.0").sensor.id =
      some "7" :=
  got_data_mismatch_logged_not_overwritten ⟨some "7", none, none, none, none, none⟩
    "9:20.0:50.0" "9" "20.0" "50.0" (by decide) (by decide)

/-- Claim C3 (code bug): a steady-state input CAN terminate the process.  When
the transport delivers the byte line `[68, 58, 255]` (`D:` followed by the
non-ASCII byte 255), `data_rd.decode('ascii')` — which sits outside the
`try`/`except` in `Sensor.read` — raises `UnicodeDecodeError`; nothing in
`read` or the main loop catches it, so the exception escapes the iteration. -/
theorem read_nonascii_exception_escapes :
    loopIter initSensor (.ok [68, 58, 255]) true = .error .unicodeDecodeError := rfl

/-- Claim C4: for every pending line `D:` + payload whose payload splits into
exactly `[id, t, h]` with both numeric texts accepted by `float()`, `process`
produces a forwardable Reading carrying that id and the two parsed values,
and stores the parsed temperature and humidity; dispatch raises nothing (the
embedded `process` is total — every parse failure is caught inside the
handlers, per sensor01.py:177-191 and 238-243). -/
theorem data_line_yields_reading (s : Sensor) (line id t h tv hv : String)
    (hline : s.line = some line)
    (htag : pyTake line 2 = "D:")
    (hsplit : pySplit (pyDrop line 2) ':' = [id, t, h])
    (ht : pyFloat t = some tv) (hh : pyFloat h = some hv) :
    (process s).reading = some ⟨id, tv, hv⟩ ∧
    (process s).sensor.temperature = some tv ∧
    (process s).sensor.humidity = some hv := by
  simp [process, hline, htag, got_data, hsplit, ht, hh]

/-- Claim C4, witness: the theorem applied to the concrete line
`D:7:21.5:48.0` from the initial state. -/
theorem data_line_yields_reading_witness :
    (process { initSensor with line := some "D:7:21.5:48.0" }).reading =
      some ⟨"7", "21.5", "48.0"⟩ ∧
    (process { initSensor with line := some "D:7:21.5:48.0" }).sensor.temperature =
      some "21.5" ∧
    (process { initSensor with line := some "D:7:21.5:48.0" }).sensor.humidity =
      some "48.0" :=
  data_line_yields_reading _ "D:7:21.5:48.0" "7" "21.5" "48.0" "21.5" "48.0"
    rfl (by decide) (by decide) (by decide) (by decide)

/-- Claim C5: for every pending line whose first two characters are not
exactly `I:`, `D:`, or `E:` — which covers every line shorter than two
characters, since its slice `line[:2]` is the whole line — `process` yields
no reading, leaves the state untouched, and records the malformed-input log
event followed by the backoff sleep (the `KeyError` is caught, so the line is
non-fatal). -/
theorem unknown_tag_malformed (s : Sensor) (line : String)
    (hline : s.line = some line)
    (hI : pyTake line 2 ≠ "I:") (hD : pyTake line 2 ≠ "D:")
    (hE : pyTake line 2 ≠ "E:") :
    process s = ⟨s, none, [.invalidData line, .sleep]⟩ := by
  simp [process, hline, hI, hD, hE]

/-- Claim C5, witness: the theorem applied to the one-character line `X`. -/
theorem unknown_tag_malformed_witness :
    process { initSensor with line := some "X" } =
      ⟨{ initSensor with line := some "X" }, none, [.invalidData "X", .sleep]⟩ :=
  unknown_tag_malformed _ "X" rfl (by decide) (by decide) (by decide)

/-- Claim C6: from every state whose recorded identity id is `"7"`,
dispatching the line `D:9:20.0:50.0` still produces the Reading with sensor
id `"9"` — the mismatch does not suppress it — and the identity-mismatch
warning is among the logged events. -/
theorem mismatched_id_reading_not_suppressed (s : Sensor)
    (hid : s.id = some "7") (hline : s.line = some "D:9:20.0:50.0") :
    (process s).reading = some ⟨"9", "20.0", "50.0"⟩ ∧
    LogEvent.idChanged (some "7") "9" ∈ (process s).logs := by
  have htag : pyTake "D:9:20.0:50.0" 2 = "D:" := by decide
  have hmsg : pyDrop "D:9:20.0:50.0" 2 = "9:20.0:50.0" := by decide
  have hsplit : pySplit "9:20.0:50.0" ':' = ["9", "20.0", "50.0"] := by decide
  have hf : pyFloat "20.0" = some "20.0" := by decide
  have hg : pyFloat "50.0" = some "50.0" := by decide
  simp [process, hline, htag, hmsg, got_data, hsplit, hf, hg, hid]

/-- Claim C6, witness: the theorem applied to a concrete state recorded from
an earlier `I:boot:C:7:2.1` boot (id `"7"`), with the mismatching data line
pending. -/
theorem mismatched_id_reading_not_suppressed_witness :
    (process ⟨some "7", some "2.1", some "C", some "D:9:20.0:50.0", none, none⟩).reading =
      some ⟨"9", "20.0", "50.0"⟩ ∧
    LogEvent.idChanged (some "7") "9" ∈
      (process ⟨some "7", some "2.1", some "C", some "D:9:20.0:50.0", none, none⟩).logs :=
  mismatched_id_reading_not_suppressed _ rfl rfl

/-- Claim C7: whenever an iteration with a working sink would produce and
forward a reading, the same iteration with a failing sink ends in the very
same state with the reading dropped (not forwarded, no retry, no buffering)
and the sink error logged followed by the backoff sleep — and it still
returns normally (`Except.ok`), so the loop is not terminated and the next
line is read, parsed, and dispatched from an identical state. -/
theorem sink_failure_drops_reading_and_continues (s : Sensor)
    (input : Except Unit (List Nat)) (s1 : Sensor) (r : Reading)
    (logs : List LogEvent)
    (hok : loopIter s input true = .ok ⟨s1, some r, logs⟩) :
    loopIter s input false = .ok ⟨s1, none, logs ++ [.sinkError, .sleep]⟩ := by
  unfold loopIter at hok ⊢
  cases hread : read s input with
  | error e => rw [hread] at hok; exact absurd hok (by simp)
  | ok p =>
    obtain ⟨s2, logs1⟩ := p
    rw [hread] at hok
    dsimp only at hok ⊢
    cases hr : (process s2).reading with
    | none => rw [hr] at hok; simp at hok
    | some rd =>
      rw [hr] at hok
      simp at hok ⊢
      obtain ⟨h1, h2, h3⟩ := hok
      subst h1; subst h2; subst h3
      simp

/-- Claim C7, witness: the theorem applied to the concrete transport line
`D:7:21.5:48.0` from the initial state, whose sink-success run forwards one
reading. -/
theorem sink_failure_drops_reading_and_continues_witness :
    loopIter initSensor (.ok (asciiBytes "D:7:21.5:48.0")) false =
      .ok ⟨⟨none, none, none, some "D:7:21.5:48.0", some "21.5", some "48.0"⟩, none,
        [.idChanged none "7", .dataLog "7" "21.5" "48.0", .sinkError, .sleep]⟩ :=
  sink_failure_drops_reading_and_continues initSensor (.ok (asciiBytes "D:7:21.5:48.0"))
    ⟨none, none, none, some "D:7:21.5:48.0", some "21.5", some "48.0"⟩
    ⟨"7", "21.5", "48.0"⟩ [.idChanged none "7", .dataLog "7" "21.5" "48.0"] rfl

/-- Claim C8: when the transport read raises (TransportError), the iteration
logs the failure, takes the backoff sleep, and ends normally with no reading
produced and no handler dispatched (`self.line` stays `None`, so `process`
returns immediately); every sensor-state field other than the transient
pending line is exactly as before. -/
theorem transport_error_skips_iteration (s : Sensor) (sinkOk : Bool) :
    loopIter s (.error ()) sinkOk =
      .ok ⟨{ s with line := none }, none, [.readError, .sleep]⟩ := rfl

/-- Claim C9: dispatching the line `I:boot:C:42:1.0` twice in a row from any
starting state yields exactly the state reached after dispatching it once —
identity `{scale C, id 42, version 1.0}` — and neither dispatch produces a
Reading. -/
theorem info_idempotent (s : Sensor) :
    (dispatchLine (dispatchLine s "I:boot:C:42:1.0").sensor "I:boot:C:42:1.0").sensor =
      (dispatchLine s "I:boot:C:42:1.0").sensor ∧
    (dispatchLine s "I:boot:C:42:1.0").sensor.scale = some "C" ∧
    (dispatchLine s "I:boot:C:42:1.0").sensor.id = some "42" ∧
    (dispatchLine s "I:boot:C:42:1.0").sensor.ver = some "1.0" ∧
    (dispatchLine s "I:boot:C:42:1.0").reading = none ∧
    (dispatchLine (dispatchLine s "I:boot:C:42:1.0").sensor "I:boot:C:42:1.0").reading = none := by
  have htag : pyTake "I:boot:C:42:1.0" 2 = "I:" := by decide
  have hmsg : pyDrop "I:boot:C:42:1.0" 2 = "boot:C:42:1.0" := by decide
  have hsplit : pySplit "boot:C:42:1.0" ':' = ["boot", "C", "42", "1.0"] := by decide
  simp [dispatchLine, process, htag, hmsg, got_info, hsplit]

/-- Claim C10: a Data message never writes the identity fields, whatever its
payload (any field count, any float validity, any id mismatch), and neither
does any dispatched line whose tag is not `I:` — only an Info message ever
writes `scale`, `id`, or `ver`. -/
theorem data_never_writes_identity (s : Sensor) (d line : String)
    (hline : pyTake line 2 ≠ "I:") :
    ((got_data s d).sensor.id = s.id ∧ (got_data s d).sensor.ver = s.ver ∧
      (got_data s d).sensor.scale = s.scale) ∧
    ((dispatchLine s line).sensor.id = s.id ∧
      (dispatchLine s line).sensor.ver = s.ver ∧
      (dispatchLine s line).sensor.scale = s.scale) := by
  refine ⟨got_data_identity_frame_aux s d, ?_⟩
  unfold dispatchLine process
  dsimp only
  rw [if_neg hline]
  split
  · have h := got_data_identity_frame_aux { s with line := some line } (pyDrop line 2)
    simpa using h
  · split
    · simp [got_error]
    · simp

/-- Claim C10, witness: the theorem applied to the initial state with the
mismatching data payload `9:20.0:50.0` and the non-Info line `E:oops`. -/
theorem data_never_writes_identity_witness :
    ((got_data initSensor "9:20.0:50.0").sensor.id = initSensor.id ∧
      (got_data initSensor "9:20.0:50.0").sensor.ver = initSensor.ver ∧
      (got_data initSensor "9:20.0:50.0").sensor.scale = initSensor.scale) ∧
    ((dispatchLine initSensor "E:oops").sensor.id = initSensor.id ∧
      (dispatchLine initSensor "E:oops").sensor.ver = initSensor.ver ∧
      (dispatchLine initSensor "E:oops").sensor.scale = initSensor.scale) :=
  data_never_writes_identity initSensor "9:20.0:50.0" "E:oops" (by decide)

end Sensor01
